import Mathlib

/-!
Verification of the RoseGlassCerataCRM core against its specification.

The Python source is shallowly embedded: floats are modelled as exact
rationals (`ℚ`), the urgency transform is additionally modelled over `ℝ`
for the continuity property, dictionaries keyed by known names become
if-chains with the source's fallback defaults, and datetime / logging /
file-storage side effects (presentation only) are elided.  Stateful
manager classes become explicit state-passing functions.
-/

namespace RoseGlass

/-- Does the second character list occur as a prefix of the first? -/
def startsWithChars : List Char → List Char → Bool
  | _, [] => true
  | [], _ :: _ => false
  | a :: as, b :: bs => (a = b) && startsWithChars as bs

/-- Does the second character list occur anywhere inside the first? -/
def containsChars : List Char → List Char → Bool
  | [], t => startsWithChars [] t
  | s@(_ :: rest), t => startsWithChars s t || containsChars rest t

/-- Python `needle in haystack` substring test. -/
def strContains (s t : String) : Bool := containsChars s.data t.data

/-- Python `str.lower()` (ASCII case folding suffices for the lexicons
involved). -/
def strToLower (s : String) : String := ⟨s.data.map Char.toLower⟩

/-- Python truthiness of an `Optional[str]`: not `None` and non-empty. -/
def truthy (o : Option String) : Bool := o.getD "" ≠ ""

/-- `LeadData` from `core/rose_glass_lens.py` (the spec's SignalRecord). -/
structure LeadData where
  lead_id : String := ""
  company_name : String := ""
  contact_name : Option String := none
  contact_title : Option String := none
  contact_email : Option String := none
  industry : Option String := none
  company_size : Option String := none
  revenue_range : Option String := none
  tech_stack : List String := []
  source : String := "unknown"
  initial_interest : Option String := none
  pain_points : List String := []
  is_decision_maker : Option Bool := none
  budget_mentioned : Option Bool := none
  timeline_mentioned : Option String := none
  current_solution : Option String := none
  competitor_mentioned : List String := []
  use_case : Option String := none
  website_visits : Nat := 0
  content_downloads : List String := []
  email_opens : Nat := 0
  meeting_requests : Nat := 0
  notes : String := ""
  email_content : String := ""
  call_transcript : String := ""
deriving DecidableEq, Repr

/-- `LeadData.get_text_for_analysis`. -/
def get_text_for_analysis (lead : LeadData) : String :=
  let parts := [lead.notes, lead.email_content, lead.call_transcript,
    lead.initial_interest.getD "",
    String.intercalate " " lead.pain_points,
    lead.use_case.getD ""]
  String.intercalate " " (parts.filter (fun p => p ≠ ""))

/-- Result of perceiving a lead (timestamp elided). -/
structure LeadCoherence where
  psi_intent : ℚ
  rho_authority : ℚ
  q_urgency : ℚ
  f_fit : ℚ
  coherence_score : ℚ
  qualification_tier : String
  lens_used : String
  confidence : ℚ
  positive_signals : List String
  warning_signals : List String
  disqualifiers : List String
  next_actions : List String
deriving DecidableEq, Repr

/-- `RoseGlassCRMLens.KM`. -/
def KM : ℚ := 1/5

/-- `RoseGlassCRMLens.KI`. -/
def KI : ℚ := 4/5

structure Weights where
  psi_intent : ℚ
  rho_authority : ℚ
  q_urgency : ℚ
  f_fit : ℚ
deriving DecidableEq, Repr

/-- `RoseGlassCRMLens.DEFAULT_WEIGHTS`. -/
def DEFAULT_WEIGHTS : Weights := ⟨1/4, 3/10, 1/4, 1/5⟩

/-- `LENS_CALIBRATIONS[name]['weights']`, falling back to the defaults
when the lens name is unknown (empty calibration dict). -/
def lensWeights (name : String) : Weights :=
  if name = "enterprise_saas" then ⟨1/5, 7/20, 1/5, 1/4⟩
  else if name = "smb_tech" then ⟨3/10, 1/5, 3/10, 1/5⟩
  else if name = "federal_gov" then ⟨1/4, 1/4, 3/20, 7/20⟩
  else if name = "healthcare" then ⟨1/5, 3/10, 1/5, 3/10⟩
  else DEFAULT_WEIGHTS

/-- `LENS_CALIBRATIONS[name]['authority_threshold']`, default `0.5`. -/
def authorityThreshold (name : String) : ℚ :=
  if name = "enterprise_saas" then 3/5
  else if name = "smb_tech" then 2/5
  else if name = "federal_gov" then 1/2
  else if name = "healthcare" then 11/20
  else 1/2

/-- `RoseGlassCRMLens.biological_optimization` over `ℚ`. -/
def biological_optimization (q_raw : ℚ) : ℚ :=
  if q_raw ≤ 0 then 0
  else q_raw / (KM + q_raw + q_raw ^ 2 / KI)

/-- `RoseGlassCRMLens.biological_optimization` over `ℝ`, for the
analytic properties (continuity) the spec states about the transform. -/
noncomputable def biological_optimizationR (q_raw : ℝ) : ℝ :=
  if q_raw ≤ 0 then 0
  else q_raw / (1/5 + q_raw + q_raw ^ 2 / (4/5))

/-- `source_weights.get(source, 0.05)` in `_extract_psi_intent`. -/
def sourceWeight (s : String) : ℚ :=
  if s = "inbound" then 3/10
  else if s = "referral" then 1/4
  else if s = "event" then 1/5
  else if s = "content" then 3/20
  else if s = "outbound" then 1/10
  else if s = "unknown" then 1/20
  else 1/20

/-- `RoseGlassCRMLens._extract_psi_intent`. -/
def extract_psi_intent (lead : LeadData) : ℚ :=
  let s0 := sourceWeight lead.source
  let s1 := s0 + (if lead.pain_points ≠ [] then
      min ((lead.pain_points.length : ℚ) * (1/10)) (3/10) else 0)
  let s2 := s1 + (if truthy lead.use_case then 1/5 else 0)
  let s3 := s2 + (if 0 < lead.meeting_requests then 3/20 else 0)
  let s4 := s3 + (if lead.content_downloads ≠ [] then
      min ((lead.content_downloads.length : ℚ) * (1/20)) (3/20) else 0)
  min s4 1

def authority_titles : List String :=
  ["ceo", "cto", "cfo", "coo", "vp", "director", "head of", "chief"]

/-- `size_weights.get(company_size or '', 0.1)` in `_extract_rho_authority`. -/
def sizeWeight (s : String) : ℚ :=
  if s = "enterprise" then 3/20
  else if s = "mid-market" then 1/5
  else if s = "smb" then 3/20
  else if s = "startup" then 1/10
  else 1/10

/-- `RoseGlassCRMLens._extract_rho_authority`. -/
def extract_rho_authority (lead : LeadData) : ℚ :=
  let s0 : ℚ := if lead.is_decision_maker = some true then 7/20
    else if lead.is_decision_maker = none then 3/20 else 0
  let s1 := s0 + (if truthy lead.contact_title ∧
      authority_titles.any
        (fun t => strContains (strToLower (lead.contact_title.getD "")) t)
    then 1/4 else 0)
  let s2 := s1 + (if lead.budget_mentioned = some true then 1/5 else 0)
  let s3 := s2 + sizeWeight (lead.company_size.getD "")
  min s3 1

/-- `timeline_weights.get(timeline_mentioned, 0.1)` in `_extract_q_urgency`. -/
def timelineWeight (t : String) : ℚ :=
  if t = "immediate" then 2/5
  else if t = "this_quarter" then 3/10
  else if t = "next_quarter" then 1/5
  else if t = "this_year" then 1/10
  else 1/10

def urgency_markers : List String :=
  ["urgent", "asap", "immediately", "critical", "deadline",
   "struggling", "failing", "breaking", "desperate", "need now"]

/-- `RoseGlassCRMLens._extract_q_urgency` (the raw capped sum, before the
saturating transform). -/
def extract_q_urgency (lead : LeadData) : ℚ :=
  let s0 : ℚ := if truthy lead.timeline_mentioned then
      timelineWeight (lead.timeline_mentioned.getD "") else 0
  let text := strToLower (get_text_for_analysis lead)
  let urgency_count := (urgency_markers.filter (fun m => strContains text m)).length
  let s1 := s0 + min ((urgency_count : ℚ) * (1/10)) (3/10)
  let s2 := s1 + (if 1 < lead.meeting_requests then 3/20 else 0)
  let s3 := s2 + (if 5 < lead.website_visits then 1/10 else 0)
  min s3 1

def target_industries : List String :=
  ["technology", "saas", "software", "fintech", "healthcare tech"]

/-- `RoseGlassCRMLens._extract_f_fit`. -/
def extract_f_fit (lead : LeadData) : ℚ :=
  let s0 : ℚ := if truthy lead.industry ∧
      target_industries.any
        (fun t => strContains (strToLower (lead.industry.getD "")) t)
    then 1/4 else 0
  let s1 := s0 + (if lead.tech_stack ≠ [] then
      min ((lead.tech_stack.length : ℚ) * (1/20)) (1/5) else 0)
  let s2 := s1 + (if lead.company_size = some "mid-market" ∨
      lead.company_size = some "enterprise" then 1/5
    else if lead.company_size = some "smb" then 3/20 else 0)
  let s3 := s2 + (if lead.competitor_mentioned = [] then 3/20 else 1/10)
  let s4 := s3 + (if lead.source = "referral" then 3/20 else 0)
  min s4 1

/-- `RoseGlassCRMLens._calculate_coherence`. -/
def calculate_coherence (w : Weights) (psi rho q f : ℚ) : ℚ :=
  let coupling := (3/20) * rho * psi
  min ((w.psi_intent * psi + w.rho_authority * rho +
        w.q_urgency * q + w.f_fit * f + coupling) * 4) 4

/-- `RoseGlassCRMLens._determine_tier` (`psi` is an unused parameter in
the source as well). -/
def determine_tier (name : String) (coherence psi rho q f : ℚ) : String :=
  let ath := authorityThreshold name
  if f < 1/5 then "disqualified"
  else if rho < 3/20 then "disqualified"
  else if 5/2 ≤ coherence ∧ ath ≤ rho ∧ 3/10 ≤ q then "hot"
  else if 3/2 ≤ coherence then "warm"
  else "cold"

/-- `RoseGlassCRMLens._detect_signals`. -/
def detect_signals (lead : LeadData) (psi rho q f : ℚ) :
    List String × List String × List String :=
  let positive :=
    (if 3/5 ≤ psi then ["Strong intent signals"] else []) ++
    (if 3/5 ≤ rho then ["Decision-making authority"] else []) ++
    (if 1/2 ≤ q then ["Urgency expressed"] else []) ++
    (if 3/5 ≤ f then ["Strong ICP fit"] else []) ++
    (if lead.source = "referral" then ["Referral lead (ecosystem validated)"] else []) ++
    (if lead.budget_mentioned = some true then ["Budget discussed"] else [])
  let warning :=
    (if rho < 2/5 ∧ 1/2 < psi then ["Intent without authority - may need champion"] else []) ++
    (if 7/10 < q ∧ rho < 2/5 then ["High urgency + low authority - may be researcher"] else []) ++
    (if lead.competitor_mentioned ≠ [] then
      ["Currently using: " ++ String.intercalate ", " lead.competitor_mentioned] else []) ++
    (if psi < 3/10 then ["Unclear intent - needs discovery"] else [])
  let disqualifiers :=
    (if f < 1/5 then ["Poor ICP fit"] else []) ++
    (if rho < 3/20 ∧ lead.company_size = some "enterprise" then
      ["Too junior for enterprise deal"] else [])
  (positive, warning, disqualifiers)

/-- `RoseGlassCRMLens._recommend_actions`. -/
def recommend_actions (tier : String) (lead : LeadData) (psi rho q _f : ℚ) :
    List String :=
  if tier = "disqualified" then
    ["Archive - does not meet qualification criteria"]
  else if tier = "hot" then
    ["Schedule demo/meeting ASAP"] ++
    (if ¬ lead.budget_mentioned = some true then ["Confirm budget in first call"] else []) ++
    (if 3/5 ≤ q then ["Offer accelerated timeline"] else [])
  else if tier = "warm" then
    (if psi < 1/2 then ["Discovery call to understand needs"] else []) ++
    (if rho < 1/2 then ["Identify decision-maker / champion"] else []) ++
    (if q < 3/10 then ["Create urgency - share ROI data"] else []) ++
    ["Add to nurture sequence"]
  else if tier = "cold" then
    ["Add to long-term nurture"] ++
    (if psi < 3/10 then ["Send educational content"] else []) ++
    ["Re-evaluate in 30 days"]
  else []

/-- `RoseGlassCRMLens._calculate_confidence` (data completeness / 10). -/
def lens_confidence (lead : LeadData) : ℚ :=
  let pts : Nat :=
    (if truthy lead.contact_name then 1 else 0) +
    (if truthy lead.contact_title then 1 else 0) +
    (if truthy lead.industry then 1 else 0) +
    (if truthy lead.company_size then 1 else 0) +
    (if lead.pain_points ≠ [] then 1 else 0) +
    (if lead.is_decision_maker ≠ none then 1 else 0) +
    (if lead.budget_mentioned ≠ none then 1 else 0) +
    (if truthy lead.timeline_mentioned then 1 else 0) +
    (if (get_text_for_analysis lead).trim ≠ "" then 2 else 0)
  (pts : ℚ) / 10

/-- `RoseGlassCRMLens.perceive`. -/
def perceive (name : String) (lead : LeadData) : LeadCoherence :=
  let psi := extract_psi_intent lead
  let rho := extract_rho_authority lead
  let q_raw := extract_q_urgency lead
  let f := extract_f_fit lead
  let q := biological_optimization q_raw
  let coherence := calculate_coherence (lensWeights name) psi rho q f
  let tier := determine_tier name coherence psi rho q f
  let sigs := detect_signals lead psi rho q f
  { psi_intent := psi
    rho_authority := rho
    q_urgency := q
    f_fit := f
    coherence_score := coherence
    qualification_tier := tier
    lens_used := name
    confidence := lens_confidence lead
    positive_signals := sigs.1
    warning_signals := sigs.2.1
    disqualifiers := sigs.2.2
    next_actions := recommend_actions tier lead psi rho q f }

/-- `QualificationResult` from `pipeline/qualifier.py` (timestamps and the
constant `qualified_by` field elided). -/
structure QualificationResult where
  lead_id : String
  company_name : String
  coherence : LeadCoherence
  qualification_tier : String
  qualified : Bool
  next_stage : String
  priority_score : ℚ
  lens_used : String
  trial_branch : String
deriving DecidableEq, Repr

/-- `LeadQualifier._determine_routing`. -/
def determine_routing (coherence : LeadCoherence) : String :=
  let tier := coherence.qualification_tier
  if tier = "hot" then "active_sales"
  else if tier = "warm" then "nurture_warm"
  else if tier = "cold" then "nurture_cold"
  else "graveyard"

/-- `LeadQualifier._calculate_priority`. -/
def calculate_priority (coherence : LeadCoherence) : ℚ :=
  let base_priority : ℚ :=
    if coherence.qualification_tier = "hot" then 1
    else if coherence.qualification_tier = "warm" then 3/5
    else if coherence.qualification_tier = "cold" then 3/10
    else 0
  let urgency_boost := coherence.q_urgency * (1/5)
  let authority_boost := coherence.rho_authority * (3/20)
  min 1 (base_priority + urgency_boost + authority_boost)

/-- `LeadQualifier.qualify` (stat counters and logging elided; they do not
affect the returned result). -/
def qualify (lens_name trial_branch : String) (lead : LeadData) :
    QualificationResult :=
  let coherence := perceive lens_name lead
  { lead_id := lead.lead_id
    company_name := lead.company_name
    coherence := coherence
    qualification_tier := coherence.qualification_tier
    qualified := coherence.qualification_tier ≠ "disqualified"
    next_stage := determine_routing coherence
    priority_score := calculate_priority coherence
    lens_used := lens_name
    trial_branch := trial_branch }

/-- Descending-priority comparison used by `qualify_batch`'s sort. -/
def priorityGE (a b : QualificationResult) : Prop :=
  b.priority_score ≤ a.priority_score

instance : DecidableRel priorityGE := fun a b =>
  inferInstanceAs (Decidable (b.priority_score ≤ a.priority_score))

instance : IsTotal QualificationResult priorityGE :=
  ⟨fun a b => (le_total b.priority_score a.priority_score)⟩

instance : IsTrans QualificationResult priorityGE :=
  ⟨fun _ _ _ h1 h2 => le_trans h2 h1⟩

/-- `LeadQualifier.qualify_batch`: qualify each lead, then sort by
non-increasing priority (a stable sort, like Python `list.sort`). -/
def qualify_batch (lens_name trial_branch : String) (leads : List LeadData) :
    List QualificationResult :=
  List.insertionSort priorityGE (leads.map (qualify lens_name trial_branch))

/-! ### Trial engine (`trial/trial_manager.py`) -/

inductive TrialStatus where
  | planned | running | paused | completed | promoted | archived
deriving DecidableEq, Repr

/-- Configuration payloads are opaque to the trial engine's control flow;
a config dict is modelled as a list of key/value pairs. -/
abbrev Config := List (String × String)

/-- `TrialBranch` (metrics state). -/
structure TrialBranch where
  name : String
  description : String
  config : Config := []
  leads_qualified : Nat := 0
  leads_hot : Nat := 0
  leads_warm : Nat := 0
  leads_cold : Nat := 0
  leads_disqualified : Nat := 0
  outcomes_won : Nat := 0
  outcomes_lost : Nat := 0
  total_revenue : ℚ := 0
  total_cost : ℚ := 0
deriving DecidableEq, Repr

/-- `TrialBranch.qualification_rate`. -/
def qualification_rate (b : TrialBranch) : ℚ :=
  if b.leads_qualified = 0 then 0
  else ((b.leads_qualified : ℚ) - (b.leads_disqualified : ℚ)) / (b.leads_qualified : ℚ)

/-- `TrialBranch.conversion_rate`. -/
def conversion_rate (b : TrialBranch) : ℚ :=
  let total_outcomes := b.outcomes_won + b.outcomes_lost
  if total_outcomes = 0 then 0
  else (b.outcomes_won : ℚ) / (total_outcomes : ℚ)

/-- `TrialBranch.avg_deal_value`. -/
def avg_deal_value (b : TrialBranch) : ℚ :=
  if b.outcomes_won = 0 then 0
  else b.total_revenue / (b.outcomes_won : ℚ)

/-- `TrialBranch.roi`. -/
def roi (b : TrialBranch) : ℚ :=
  if b.total_cost = 0 then 0
  else (b.total_revenue - b.total_cost) / b.total_cost

/-- `TrialBranch.fitness_score`. -/
def fitness_score (b : TrialBranch) : ℚ :=
  let revenue_weight := min (avg_deal_value b / 100000) 1
  qualification_rate b * (3/10) + conversion_rate b * (1/2) +
    revenue_weight * (1/5)

/-- `Trial` (timestamps elided). -/
structure Trial where
  trial_id : String
  name : String
  description : String
  classic_branch : TrialBranch
  experimental_branch : TrialBranch
  traffic_split : ℚ := 1/2
  min_sample_size : Nat := 50
  confidence_threshold : ℚ := 19/20
  status : TrialStatus := .planned
  winner : Option String := none
  confidence : Option ℚ := none
deriving DecidableEq, Repr

/-- `Trial.is_ready_for_evaluation`. -/
def is_ready_for_evaluation (t : Trial) : Bool :=
  decide (t.min_sample_size ≤ t.classic_branch.leads_qualified) &&
  decide (t.min_sample_size ≤ t.experimental_branch.leads_qualified)

/-- `TrialResult` (rationale text and timestamp elided). -/
structure TrialResult where
  trial_id : String
  winner : String
  confidence : ℚ
  classic_fitness : ℚ
  experimental_fitness : ℚ
  improvement : ℚ
  recommendation : String
deriving DecidableEq, Repr

/-- An entry of `TrialManager.standards_history` (timestamp elided). -/
structure StandardEntry where
  config : Config
  replaced_by : String
  trial_id : String
deriving DecidableEq, Repr

/-- In-memory state of a `TrialManager` (file storage elided; the
"current standard" file becomes an explicit state field). -/
structure TrialManagerState where
  trials : List Trial
  standards_history : List StandardEntry := []
  current_standard : Config := []
deriving DecidableEq, Repr

/-- `TrialManager._get_trial`. -/
def get_trial (st : TrialManagerState) (trial_id : String) : Option Trial :=
  st.trials.find? (fun t => t.trial_id == trial_id)

/-- Mutating the trial object returned by `_get_trial` updates the first
list entry with that id. -/
def update_trial (trial_id : String) (f : Trial → Trial) :
    List Trial → List Trial
  | [] => []
  | t :: ts =>
    if t.trial_id = trial_id then f t :: ts
    else t :: update_trial trial_id f ts

/-- `TrialManager._calculate_confidence`. -/
def calculate_confidence (t : Trial) : ℚ :=
  let classic_n := t.classic_branch.leads_qualified
  let exp_n := t.experimental_branch.leads_qualified
  let sample_confidence :=
    min (((classic_n + exp_n : Nat) : ℚ) / ((t.min_sample_size * 4 : Nat) : ℚ)) 1
  let fitness_diff :=
    |fitness_score t.classic_branch - fitness_score t.experimental_branch|
  let difference_confidence := min (fitness_diff / (1/5)) 1
  (sample_confidence + difference_confidence) / 2

/-- `TrialManager.evaluate_trial`: returns the optional `TrialResult` and
the manager state afterwards (the trial's winner/confidence fields are
recorded on success). -/
def evaluate_trial (st : TrialManagerState) (trial_id : String) :
    Option TrialResult × TrialManagerState :=
  match get_trial st trial_id with
  | none => (none, st)
  | some t =>
    if ¬ is_ready_for_evaluation t then (none, st)
    else
      let classic_fitness := fitness_score t.classic_branch
      let experimental_fitness := fitness_score t.experimental_branch
      let outcome :=
        if classic_fitness * (21/20) < experimental_fitness then
          let confidence := calculate_confidence t
          ("experimental",
           (experimental_fitness - classic_fitness) / classic_fitness * 100,
           confidence,
           if 19/20 < confidence then "promote" else "continue")
        else if experimental_fitness * (21/20) < classic_fitness then
          ("classic",
           (classic_fitness - experimental_fitness) / experimental_fitness * 100,
           calculate_confidence t,
           "archive")
        else
          ("inconclusive", 0, 0, "continue")
      let result : TrialResult :=
        { trial_id := trial_id
          winner := outcome.1
          confidence := outcome.2.2.1
          classic_fitness := classic_fitness
          experimental_fitness := experimental_fitness
          improvement := outcome.2.1
          recommendation := outcome.2.2.2 }
      let trials' := update_trial trial_id
        (fun tr => { tr with winner := some outcome.1,
                             confidence := some outcome.2.2.1 }) st.trials
      (some result, { st with trials := trials' })

/-- `TrialManager.promote_experimental`. -/
def promote_experimental (st : TrialManagerState) (trial_id : String) :
    TrialManagerState :=
  match get_trial st trial_id with
  | none => st
  | some t =>
    if t.winner ≠ some "experimental" then st
    else
      { trials := update_trial trial_id
          (fun tr => { tr with status := .promoted }) st.trials
        standards_history := st.standards_history ++
          [{ config := st.current_standard
             replaced_by := t.experimental_branch.name
             trial_id := trial_id }]
        current_standard := t.experimental_branch.config }

/-! ### Graveyard miner (`graveyard/graveyard_manager.py`) -/

/-- The `learnings` sub-dict of an outcome record. -/
structure Learnings where
  what_went_wrong : List String := []
  lesson_learned : Option String := none
deriving DecidableEq, Repr

/-- The outcome dict consumed by `GraveyardManager.bury_lead` (fields
accessed via `.get` become options with the source's defaults). -/
structure OutcomeRecord where
  lead_id : String
  company_name : String
  outcome_type : String
  qualification_tier : Option String := none
  coherence_score : Option ℚ := none
  trial_branch : Option String := none
  expected_value : Option ℚ := none
  competitor_chosen : Option String := none
  learnings : Learnings := {}
deriving DecidableEq, Repr

/-- `Nutrient` (timestamp and applied flag elided; the latter is always
`False` at extraction time). -/
structure Nutrient where
  lead_id : String
  company_name : String
  outcome_type : String
  category : String
  lesson : String
  severity : String
  qualification_tier : Option String
  coherence_score : Option ℚ
  trial_branch : Option String
deriving DecidableEq, Repr

/-- Ordered category/keyword table of `_categorize_issue` (Python dict
insertion order). -/
def category_keywords : List (String × List String) :=
  [("qualification", ["qualify", "icp", "fit", "criteria", "disqualif"]),
   ("messaging", ["message", "value", "positioning", "communication", "pitch"]),
   ("timing", ["timing", "timeline", "urgency", "too early", "too late"]),
   ("authority", ["authority", "decision", "stakeholder", "champion", "multi-thread"]),
   ("pricing", ["price", "budget", "cost", "expensive", "roi"]),
   ("competitive", ["competitor", "competitive", "alternative", "comparison"]),
   ("engagement", ["engagement", "response", "dark", "ghosted", "follow-up"]),
   ("technical", ["technical", "integration", "feature", "requirement"])]

/-- `GraveyardManager._categorize_issue`. -/
def categorize_issue (issue : String) : String :=
  let issue_lower := strToLower issue
  match category_keywords.find?
      (fun p => p.2.any (fun kw => strContains issue_lower kw)) with
  | some p => p.1
  | none => "general"

/-- `GraveyardManager._assess_severity` (the `issue` parameter is unused
in the source as well). -/
def assess_severity (issue : String) (o : OutcomeRecord) : String :=
  let expected_value := o.expected_value.getD 0
  let coherence := o.coherence_score.getD 0
  if 50000 < expected_value then "critical"
  else if 5/2 < coherence then "critical"
  else if 3/2 < coherence then "moderate"
  else "minor"

/-- The nutrient built for one explicit `what_went_wrong` item inside
`_extract_nutrients`. -/
def wrongNutrient (o : OutcomeRecord) (issue : String) : Nutrient :=
  { lead_id := o.lead_id
    company_name := o.company_name
    outcome_type := o.outcome_type
    category := categorize_issue issue
    lesson := issue
    severity := assess_severity issue o
    qualification_tier := o.qualification_tier
    coherence_score := o.coherence_score
    trial_branch := o.trial_branch }

/-- `GraveyardManager._extract_nutrients` (the numeric interpolation in
the disqualification lesson text is elided). -/
def extract_nutrients (o : OutcomeRecord) : List Nutrient :=
  let wrong := o.learnings.what_went_wrong.map (wrongNutrient o)
  let lessonNutrients :=
    if truthy o.learnings.lesson_learned then
      let l := o.learnings.lesson_learned.getD ""
      [{ lead_id := o.lead_id, company_name := o.company_name,
         outcome_type := o.outcome_type, category := categorize_issue l,
         lesson := l, severity := "moderate",
         qualification_tier := o.qualification_tier,
         coherence_score := o.coherence_score,
         trial_branch := o.trial_branch }]
    else []
  let inferred :=
    if o.outcome_type = "lost_competitor" then
      if truthy o.competitor_chosen then
        [{ lead_id := o.lead_id, company_name := o.company_name,
           outcome_type := o.outcome_type, category := "competitive",
           lesson := "Lost to " ++ o.competitor_chosen.getD "" ++
             " - analyze competitive positioning",
           severity := "moderate",
           qualification_tier := o.qualification_tier,
           coherence_score := o.coherence_score,
           trial_branch := o.trial_branch }]
      else []
    else if o.outcome_type = "lost_dark" then
      [{ lead_id := o.lead_id, company_name := o.company_name,
         outcome_type := o.outcome_type, category := "engagement",
         lesson := "Lead went dark - review engagement cadence and value delivery",
         severity := "moderate",
         qualification_tier := o.qualification_tier,
         coherence_score := o.coherence_score,
         trial_branch := o.trial_branch }]
    else if o.outcome_type = "disqualified" then
      [{ lead_id := o.lead_id, company_name := o.company_name,
         outcome_type := o.outcome_type, category := "qualification",
         lesson := "Disqualified - review qualification criteria",
         severity := "minor",
         qualification_tier := some "disqualified",
         coherence_score := o.coherence_score,
         trial_branch := o.trial_branch }]
    else []
  wrong ++ lessonNutrients ++ inferred

/-- In-memory state of a `GraveyardManager` (file storage elided). -/
structure GraveyardState where
  graveyard_leads : List OutcomeRecord := []
  nutrients : List Nutrient := []
deriving DecidableEq, Repr

/-- `GraveyardManager.bury_lead`: returns the extracted nutrients and the
graveyard state afterwards. -/
def bury_lead (st : GraveyardState) (o : OutcomeRecord) :
    List Nutrient × GraveyardState :=
  let ns := extract_nutrients o
  (ns, { graveyard_leads := st.graveyard_leads ++ [o]
         nutrients := st.nutrients ++ ns })

/-! ### Concrete inputs used to settle the claims -/

/-- The spec's scenario record: referral source, three pain points,
decision-maker, budget mentioned, timeline `this_quarter`, two meeting
requests, all other optional fields absent. -/
def c2_lead : LeadData :=
  { lead_id := "L1", company_name := "Acme", source := "referral",
    pain_points := ["no sso", "manual onboarding", "audit gaps"],
    is_decision_maker := some true, budget_mentioned := some true,
    timeline_mentioned := some "this_quarter", meeting_requests := 2 }

/-- A lead the lens rates `hot` (mirrors the module demo's hot lead). -/
def c7_lead : LeadData :=
  { lead_id := "hot001", company_name := "Acme Enterprise",
    contact_name := some "John Smith", contact_title := some "VP Engineering",
    contact_email := some "john@acme.com", industry := some "SaaS",
    company_size := some "enterprise", source := "referral",
    pain_points := ["security compliance", "access management", "audit requirements"],
    is_decision_maker := some true, budget_mentioned := some true,
    timeline_mentioned := some "this_quarter", meeting_requests := 2,
    use_case := some "Replace legacy IAM system" }

/-- A trial whose recorded winner is `classic`, not `experimental`. -/
def c4_trial : Trial :=
  { trial_id := "t4", name := "T4", description := "d",
    classic_branch := { name := "classic", description := "Current standard approach" },
    experimental_branch := { name := "experimental_t4", description := "exp" },
    winner := some "classic" }

def c4_state : TrialManagerState := { trials := [c4_trial] }

/-- A trial below the sample-size gate on both branches. -/
def c5_trial : Trial :=
  { trial_id := "t5", name := "T5", description := "d",
    classic_branch := { name := "classic", description := "c", leads_qualified := 10 },
    experimental_branch := { name := "experimental_t5", description := "e", leads_qualified := 60 } }

def c5_state : TrialManagerState := { trials := [c5_trial] }

/-- A trial at full sample size with equal branch fitness: its evaluation
is inconclusive. -/
def c6_trial : Trial :=
  { trial_id := "t6", name := "T6", description := "d",
    classic_branch := { name := "classic", description := "c", leads_qualified := 50 },
    experimental_branch := { name := "experimental_t6", description := "e", leads_qualified := 50 } }

def c6_state : TrialManagerState := { trials := [c6_trial] }

/-- The `TrialResult` that evaluating `c6_trial` produces. -/
def c6_result : TrialResult :=
  { trial_id := "t6", winner := "inconclusive", confidence := 0,
    classic_fitness := 3/10, experimental_fitness := 3/10,
    improvement := 0, recommendation := "continue" }

/-- A decisive trial: classic fitness 3/10 beats experimental 3/20. -/
def c6w_trial : Trial :=
  { trial_id := "t6w", name := "T6w", description := "d",
    classic_branch := { name := "classic", description := "c", leads_qualified := 50 },
    experimental_branch := { name := "experimental_t6w", description := "e",
                             leads_qualified := 50, leads_disqualified := 25 } }

def c6w_state : TrialManagerState := { trials := [c6w_trial] }

/-- The `TrialResult` that evaluating `c6w_trial` produces. -/
def c6w_result : TrialResult :=
  { trial_id := "t6w", winner := "classic", confidence := 5/8,
    classic_fitness := 3/10, experimental_fitness := 3/20,
    improvement := 100, recommendation := "archive" }

/-- A lost high-value outcome with one explicit what-went-wrong item. -/
def c8_outcome : OutcomeRecord :=
  { lead_id := "lost001", company_name := "Acme Corp",
    outcome_type := "lost_competitor", qualification_tier := some "hot",
    coherence_score := some (31/10), trial_branch := some "classic",
    expected_value := some 60000, competitor_chosen := some "Competitor X",
    learnings := { what_went_wrong := ["Lost on price"],
                   lesson_learned := some "Need better competitive pricing strategy" } }

/-- An empty branch: every derived metric hits its zero-denominator case. -/
def c9_branch : TrialBranch := { name := "classic", description := "c" }

end RoseGlass

namespace RoseGlass

theorem ite_nonneg {c : Prop} [Decidable c] {a b : ℚ} (ha : 0 ≤ a) (hb : 0 ≤ b) :
    0 ≤ if c then a else b := by
  split <;> assumption

theorem sourceWeight_nonneg (s : String) : 0 ≤ sourceWeight s := by
  unfold sourceWeight; split_ifs <;> norm_num

theorem extract_psi_intent_nonneg (lead : LeadData) : 0 ≤ extract_psi_intent lead := by
  simp only [extract_psi_intent]
  refine le_min ?_ (by norm_num)
  have h0 := sourceWeight_nonneg lead.source
  have h1 : (0:ℚ) ≤ if lead.pain_points ≠ [] then
      min ((lead.pain_points.length : ℚ) * (1/10)) (3/10) else 0 :=
    ite_nonneg (le_min (by positivity) (by norm_num)) le_rfl
  have h2 : (0:ℚ) ≤ if truthy lead.use_case then 1/5 else 0 :=
    ite_nonneg (by norm_num) le_rfl
  have h3 : (0:ℚ) ≤ if 0 < lead.meeting_requests then 3/20 else 0 :=
    ite_nonneg (by norm_num) le_rfl
  have h4 : (0:ℚ) ≤ if lead.content_downloads ≠ [] then
      min ((lead.content_downloads.length : ℚ) * (1/20)) (3/20) else 0 :=
    ite_nonneg (le_min (by positivity) (by norm_num)) le_rfl
  linarith

theorem extract_psi_intent_le_one (lead : LeadData) : extract_psi_intent lead ≤ 1 := by
  simp only [extract_psi_intent]; exact min_le_right _ _

theorem sizeWeight_nonneg (s : String) : 0 ≤ sizeWeight s := by
  unfold sizeWeight; split_ifs <;> norm_num

theorem extract_rho_authority_nonneg (lead : LeadData) :
    0 ≤ extract_rho_authority lead := by
  simp only [extract_rho_authority]
  refine le_min ?_ (by norm_num)
  have h0 : (0:ℚ) ≤ if lead.is_decision_maker = some true then 7/20
      else if lead.is_decision_maker = none then 3/20 else 0 :=
    ite_nonneg (by norm_num) (ite_nonneg (by norm_num) le_rfl)
  have h1 : (0:ℚ) ≤ if truthy lead.contact_title ∧
      authority_titles.any
        (fun t => strContains (strToLower (lead.contact_title.getD "")) t)
    then 1/4 else 0 := ite_nonneg (by norm_num) le_rfl
  have h2 : (0:ℚ) ≤ if lead.budget_mentioned = some true then 1/5 else 0 :=
    ite_nonneg (by norm_num) le_rfl
  have h3 := sizeWeight_nonneg (lead.company_size.getD "")
  linarith

theorem extract_rho_authority_le_one (lead : LeadData) :
    extract_rho_authority lead ≤ 1 := by
  simp only [extract_rho_authority]; exact min_le_right _ _

theorem timelineWeight_nonneg (s : String) : 0 ≤ timelineWeight s := by
  unfold timelineWeight; split_ifs <;> norm_num

theorem extract_q_urgency_nonneg (lead : LeadData) : 0 ≤ extract_q_urgency lead := by
  simp only [extract_q_urgency]
  refine le_min ?_ (by norm_num)
  have h0 : (0:ℚ) ≤ if truthy lead.timeline_mentioned then
      timelineWeight (lead.timeline_mentioned.getD "") else 0 :=
    ite_nonneg (timelineWeight_nonneg _) le_rfl
  have h1 : (0:ℚ) ≤ min (((urgency_markers.filter
      (fun m => strContains (strToLower (get_text_for_analysis lead)) m)).length : ℚ) * (1/10))
      (3/10) := le_min (by positivity) (by norm_num)
  have h2 : (0:ℚ) ≤ if 1 < lead.meeting_requests then 3/20 else 0 :=
    ite_nonneg (by norm_num) le_rfl
  have h3 : (0:ℚ) ≤ if 5 < lead.website_visits then 1/10 else 0 :=
    ite_nonneg (by norm_num) le_rfl
  linarith

theorem extract_f_fit_nonneg (lead : LeadData) : 0 ≤ extract_f_fit lead := by
  simp only [extract_f_fit]
  refine le_min ?_ (by norm_num)
  have h0 : (0:ℚ) ≤ if truthy lead.industry ∧
      target_industries.any
        (fun t => strContains (strToLower (lead.industry.getD "")) t)
    then 1/4 else 0 := ite_nonneg (by norm_num) le_rfl
  have h1 : (0:ℚ) ≤ if lead.tech_stack ≠ [] then
      min ((lead.tech_stack.length : ℚ) * (1/20)) (1/5) else 0 :=
    ite_nonneg (le_min (by positivity) (by norm_num)) le_rfl
  have h2 : (0:ℚ) ≤ if lead.company_size = some "mid-market" ∨
      lead.company_size = some "enterprise" then 1/5
    else if lead.company_size = some "smb" then 3/20 else 0 :=
    ite_nonneg (by norm_num) (ite_nonneg (by norm_num) le_rfl)
  have h3 : (0:ℚ) ≤ if lead.competitor_mentioned = [] then 3/20 else 1/10 :=
    ite_nonneg (by norm_num) (by norm_num)
  have h4 : (0:ℚ) ≤ if lead.source = "referral" then 3/20 else 0 :=
    ite_nonneg (by norm_num) le_rfl
  linarith

theorem extract_f_fit_le_one (lead : LeadData) : extract_f_fit lead ≤ 1 := by
  simp only [extract_f_fit]; exact min_le_right _ _

theorem biological_optimization_nonneg (x : ℚ) : 0 ≤ biological_optimization x := by
  unfold biological_optimization
  split
  · exact le_rfl
  · rename_i h
    have hx : 0 < x := not_le.mp h
    have hden : (0:ℚ) < KM + x + x ^ 2 / KI := by
      unfold KM KI; nlinarith [sq_nonneg x]
    positivity

theorem biological_optimization_le_one (x : ℚ) : biological_optimization x ≤ 1 := by
  unfold biological_optimization
  split
  · norm_num
  · rename_i h
    have hx : 0 < x := not_le.mp h
    have hden : (0:ℚ) < KM + x + x ^ 2 / KI := by
      unfold KM KI; nlinarith [sq_nonneg x]
    rw [div_le_one hden]
    unfold KM KI
    nlinarith [sq_nonneg x]

theorem lensWeights_nonneg (name : String) :
    0 ≤ (lensWeights name).psi_intent ∧ 0 ≤ (lensWeights name).rho_authority ∧
    0 ≤ (lensWeights name).q_urgency ∧ 0 ≤ (lensWeights name).f_fit := by
  unfold lensWeights DEFAULT_WEIGHTS
  split_ifs <;> exact ⟨by norm_num, by norm_num, by norm_num, by norm_num⟩

/-- C1: the urgency transform returns 0 for raw ≤ 0 and
raw / (Km + raw + raw²/Ki) otherwise (Km = 0.2, Ki = 0.8); it is
continuous on [0,4], equals 0 at 0, and is non-negative everywhere. -/
theorem urgency_transform_spec :
    (∀ x : ℝ, x ≤ 0 → biological_optimizationR x = 0) ∧
    (∀ x : ℝ, 0 < x →
      biological_optimizationR x = x / (1/5 + x + x ^ 2 / (4/5))) ∧
    ContinuousOn biological_optimizationR (Set.Icc 0 4) ∧
    biological_optimizationR 0 = 0 ∧
    (∀ x : ℝ, 0 ≤ biological_optimizationR x) := by
  have hzero : ∀ x : ℝ, x ≤ 0 → biological_optimizationR x = 0 := by
    intro x hx; simp [biological_optimizationR, hx]
  have hpos : ∀ x : ℝ, 0 < x →
      biological_optimizationR x = x / (1/5 + x + x ^ 2 / (4/5)) := by
    intro x hx; rw [biological_optimizationR, if_neg (not_le.mpr hx)]
  refine ⟨hzero, hpos, ?_, hzero 0 le_rfl, ?_⟩
  · have hcont : ContinuousOn (fun x : ℝ => x / (1/5 + x + x ^ 2 / (4/5)))
        (Set.Icc 0 4) := by
      apply ContinuousOn.div continuousOn_id
      · exact ((continuous_const.add continuous_id).add
          ((continuous_pow 2).div_const _)).continuousOn
      · intro x hx
        have h0 : (0:ℝ) ≤ x := hx.1
        have : (0:ℝ) < 1/5 + x + x ^ 2 / (4/5) := by nlinarith [sq_nonneg x]
        exact this.ne'
    apply hcont.congr
    intro x hx
    rcases lt_or_eq_of_le hx.1 with h | h
    · exact hpos x h
    · rw [← h, hzero 0 le_rfl]
      norm_num
  · intro x
    rcases le_or_lt x 0 with h | h
    · rw [hzero x h]
    · rw [hpos x h]
      have : (0:ℝ) < 1/5 + x + x ^ 2 / (4/5) := by nlinarith [sq_nonneg x]
      positivity

/-- C3: for every lead and every selectable calibration (the four named
ones or the default fallback), the perceived coherence score lies in
[0, 4]. -/
theorem coherence_score_in_range (name : String) (lead : LeadData) :
    0 ≤ (perceive name lead).coherence_score ∧
    (perceive name lead).coherence_score ≤ 4 := by
  have hw := lensWeights_nonneg name
  have hpsi := extract_psi_intent_nonneg lead
  have hrho := extract_rho_authority_nonneg lead
  have hq := biological_optimization_nonneg (extract_q_urgency lead)
  have hf := extract_f_fit_nonneg lead
  constructor
  · simp only [perceive, calculate_coherence]
    refine le_min ?_ (by norm_num)
    have h1 := mul_nonneg hw.1 hpsi
    have h2 := mul_nonneg hw.2.1 hrho
    have h3 := mul_nonneg hw.2.2.1 hq
    have h4 := mul_nonneg hw.2.2.2 hf
    have h5 : (0:ℚ) ≤ 3/20 * extract_rho_authority lead * extract_psi_intent lead :=
      mul_nonneg (mul_nonneg (by norm_num) hrho) hpsi
    nlinarith
  · simp only [perceive, calculate_coherence]
    exact min_le_right _ _

/-- Evaluation of the spec's scenario record under `enterprise_saas`. -/
theorem c2_lead_eval :
    (perceive "enterprise_saas" c2_lead).qualification_tier = "warm" ∧
    "Decision-making authority" ∈ (perceive "enterprise_saas" c2_lead).positive_signals := by
  have hpsi : extract_psi_intent c2_lead = 7/10 := by
    norm_num +decide [extract_psi_intent, sourceWeight, truthy, c2_lead, min_def]
  have hrho : extract_rho_authority c2_lead = 13/20 := by
    norm_num +decide [extract_rho_authority, sizeWeight, truthy, c2_lead, min_def]
  have hcnt : (urgency_markers.filter
      (fun m => strContains (strToLower (get_text_for_analysis c2_lead)) m)).length = 0 := by
    decide
  have hqraw : extract_q_urgency c2_lead = 9/20 := by
    simp only [extract_q_urgency, hcnt]
    norm_num +decide [timelineWeight, truthy, c2_lead, min_def]
  have hf : extract_f_fit c2_lead = 3/10 := by
    norm_num +decide [extract_f_fit, truthy, c2_lead, min_def]
  have hbio : biological_optimization (9/20) = 144/289 := by
    norm_num [biological_optimization, KM, KI]
  constructor
  · simp only [perceive, hpsi, hrho, hqraw, hf, hbio]
    norm_num +decide [determine_tier, calculate_coherence, lensWeights,
      authorityThreshold, min_def]
  · simp only [perceive, hpsi, hrho, hqraw, hf, hbio, detect_signals]
    norm_num +decide [c2_lead]

/-- Evaluation of the hot demo lead under `enterprise_saas`. -/
theorem c7_lead_eval :
    (qualify "enterprise_saas" "classic" c7_lead).qualification_tier = "hot" ∧
    (qualify "enterprise_saas" "classic" c7_lead).next_stage = "active_sales" := by
  have hpsi : extract_psi_intent c7_lead = 9/10 := by
    norm_num +decide [extract_psi_intent, sourceWeight, truthy, c7_lead, min_def]
  have hrho : extract_rho_authority c7_lead = 19/20 := by
    norm_num +decide [extract_rho_authority, sizeWeight, truthy, c7_lead, min_def]
  have hcnt : (urgency_markers.filter
      (fun m => strContains (strToLower (get_text_for_analysis c7_lead)) m)).length = 0 := by
    decide
  have hqraw : extract_q_urgency c7_lead = 9/20 := by
    simp only [extract_q_urgency, hcnt]
    norm_num +decide [timelineWeight, truthy, c7_lead, min_def]
  have hf : extract_f_fit c7_lead = 3/4 := by
    norm_num +decide [extract_f_fit, truthy, c7_lead, min_def]
  have hbio : biological_optimization (9/20) = 144/289 := by
    norm_num [biological_optimization, KM, KI]
  have htier : (perceive "enterprise_saas" c7_lead).qualification_tier = "hot" := by
    simp only [perceive, hpsi, hrho, hqraw, hf, hbio]
    norm_num +decide [determine_tier, calculate_coherence, lensWeights,
      authorityThreshold, min_def]
  refine ⟨?_, ?_⟩
  · simpa [qualify] using htier
  · simp [qualify, determine_routing, htier]

end RoseGlass

namespace RoseGlass

/-- C2 (counterexample): on the spec's exact scenario record the lens
yields tier `warm`, not `hot`. -/
theorem c2_scenario_counterexample :
    (perceive "enterprise_saas" c2_lead).qualification_tier ≠ "hot" ∧
    (perceive "enterprise_saas" c2_lead).qualification_tier = "warm" := by
  have h := c2_lead_eval
  exact ⟨by rw [h.1]; decide, h.1⟩

/-- C2 (amended): the scenario record yields tier `warm`, and its
positive-signals list contains "Decision-making authority". -/
theorem c2_scenario_amended :
    (perceive "enterprise_saas" c2_lead).qualification_tier = "warm" ∧
    "Decision-making authority" ∈ (perceive "enterprise_saas" c2_lead).positive_signals :=
  c2_lead_eval

/-- C7 (counterexample): a hot lead is routed to stage `active_sales`,
not to a stage named `active`. -/
theorem c7_routing_counterexample :
    (qualify "enterprise_saas" "classic" c7_lead).qualification_tier = "hot" ∧
    (qualify "enterprise_saas" "classic" c7_lead).next_stage = "active_sales" ∧
    (qualify "enterprise_saas" "classic" c7_lead).next_stage ≠ "active" := by
  have h := c7_lead_eval
  exact ⟨h.1, h.2, by rw [h.2]; decide⟩

/-- C7 (amended): the routing stage is a function of the tier alone:
hot to `active_sales`, warm to `nurture_warm`, cold to `nurture_cold`,
and disqualified (any other tier) to `graveyard`. -/
theorem c7_routing_amended (lens_name trial_branch : String) (lead : LeadData) :
    (qualify lens_name trial_branch lead).next_stage =
      (if (qualify lens_name trial_branch lead).qualification_tier = "hot" then "active_sales"
       else if (qualify lens_name trial_branch lead).qualification_tier = "warm" then "nurture_warm"
       else if (qualify lens_name trial_branch lead).qualification_tier = "cold" then "nurture_cold"
       else "graveyard") := by
  simp only [qualify, determine_routing]

end RoseGlass

namespace RoseGlass

/-- C4: promotion is a no-op unless the trial's recorded winner is
`experimental`; any state change implies the found trial had winner
`experimental`. -/
theorem promote_requires_experimental_winner (st : TrialManagerState) (tid : String) :
    ((∀ t, get_trial st tid = some t → t.winner ≠ some "experimental") →
      promote_experimental st tid = st) ∧
    (promote_experimental st tid ≠ st →
      ∃ t, get_trial st tid = some t ∧ t.winner = some "experimental") := by
  constructor
  · intro h
    unfold promote_experimental
    cases hg : get_trial st tid with
    | none => rfl
    | some t => simp [h t hg]
  · intro hne
    cases hg : get_trial st tid with
    | none =>
      exfalso; apply hne
      unfold promote_experimental
      rw [hg]
    | some t =>
      refine ⟨t, rfl, ?_⟩
      by_cases hw : t.winner = some "experimental"
      · exact hw
      · exfalso; apply hne
        unfold promote_experimental
        rw [hg]
        simp [hw]

theorem promote_requires_experimental_winner_witness :
    promote_experimental c4_state "t4" = c4_state := by
  apply (promote_requires_experimental_winner c4_state "t4").1
  intro t ht
  have hg : get_trial c4_state "t4" = some c4_trial := by
    simp [get_trial, c4_state, c4_trial, List.find?]
  rw [hg] at ht
  cases ht
  simp [c4_trial]

end RoseGlass

namespace RoseGlass

/-- C5: the readiness gate holds iff both branches reached the minimum
sample size, and evaluating a found-but-unready trial returns no result
and leaves the manager state (hence the trial's winner and confidence)
unchanged. -/
theorem evaluation_gate (st : TrialManagerState) (tid : String) :
    (∀ t : Trial, is_ready_for_evaluation t = true ↔
      (t.min_sample_size ≤ t.classic_branch.leads_qualified ∧
       t.min_sample_size ≤ t.experimental_branch.leads_qualified)) ∧
    (∀ t, get_trial st tid = some t → is_ready_for_evaluation t = false →
      evaluate_trial st tid = (none, st)) := by
  constructor
  · intro t
    simp [is_ready_for_evaluation]
  · intro t hg hr
    unfold evaluate_trial
    rw [hg]
    simp [hr]

theorem evaluation_gate_witness :
    is_ready_for_evaluation c5_trial = false ∧
    evaluate_trial c5_state "t5" = (none, c5_state) := by
  have hr : is_ready_for_evaluation c5_trial = false := by decide
  refine ⟨hr, ?_⟩
  apply (evaluation_gate c5_state "t5").2 c5_trial ?_ hr
  simp [get_trial, c5_state, c5_trial, List.find?]

end RoseGlass

namespace RoseGlass

theorem calculate_confidence_formula (t : Trial) :
    calculate_confidence t =
      (min (((t.classic_branch.leads_qualified +
              t.experimental_branch.leads_qualified : Nat) : ℚ) /
            ((4 * t.min_sample_size : Nat) : ℚ)) 1 +
       min (|fitness_score t.classic_branch -
             fitness_score t.experimental_branch| / (1/5)) 1) / 2 := by
  unfold calculate_confidence
  rw [Nat.mul_comm]

/-- C6 (amended): a produced `TrialResult` carries the averaged
sample-size/fitness-gap confidence only for winner `classic` or
`experimental`; an `inconclusive` result carries confidence 0. -/
theorem result_confidence (st : TrialManagerState) (tid : String)
    (t : Trial) (r : TrialResult)
    (hg : get_trial st tid = some t)
    (hr : (evaluate_trial st tid).1 = some r) :
    (r.winner = "inconclusive" → r.confidence = 0) ∧
    (r.winner ≠ "inconclusive" →
      r.confidence =
        (min (((t.classic_branch.leads_qualified +
                t.experimental_branch.leads_qualified : Nat) : ℚ) /
              ((4 * t.min_sample_size : Nat) : ℚ)) 1 +
         min (|fitness_score t.classic_branch -
               fitness_score t.experimental_branch| / (1/5)) 1) / 2) := by
  rw [← calculate_confidence_formula]
  simp only [evaluate_trial, hg] at hr
  split_ifs at hr
  all_goals dsimp only at hr
  all_goals first
    | exact Option.noConfusion hr
    | (injection hr with hr
       subst hr
       refine ⟨fun h => ?_, fun h => ?_⟩ <;> simp_all)

end RoseGlass

namespace RoseGlass

theorem c6_eval : (evaluate_trial c6_state "t6").1 = some c6_result := by
  have hget : get_trial c6_state "t6" = some c6_trial := by
    simp [get_trial, c6_state, c6_trial, List.find?]
  have hready : is_ready_for_evaluation c6_trial = true := by decide
  have hcf : fitness_score c6_trial.classic_branch = 3/10 := by
    norm_num [fitness_score, qualification_rate, conversion_rate,
      avg_deal_value, c6_trial, min_def]
  have hef : fitness_score c6_trial.experimental_branch = 3/10 := by
    norm_num [fitness_score, qualification_rate, conversion_rate,
      avg_deal_value, c6_trial, min_def]
  simp only [evaluate_trial, hget, hready, hcf, hef]
  norm_num [c6_result]

/-- C6 (counterexample): the inconclusive evaluation of `c6_trial`
records confidence 0, while the claimed average formula gives 1/4. -/
theorem c6_confidence_counterexample :
    (evaluate_trial c6_state "t6").1 = some c6_result ∧
    c6_result.winner = "inconclusive" ∧
    c6_result.confidence ≠
      (min (((c6_trial.classic_branch.leads_qualified +
              c6_trial.experimental_branch.leads_qualified : Nat) : ℚ) /
            ((4 * c6_trial.min_sample_size : Nat) : ℚ)) 1 +
       min (|fitness_score c6_trial.classic_branch -
             fitness_score c6_trial.experimental_branch| / (1/5)) 1) / 2 := by
  refine ⟨c6_eval, rfl, ?_⟩
  have hcf : fitness_score c6_trial.classic_branch = 3/10 := by
    norm_num [fitness_score, qualification_rate, conversion_rate,
      avg_deal_value, c6_trial, min_def]
  have hef : fitness_score c6_trial.experimental_branch = 3/10 := by
    norm_num [fitness_score, qualification_rate, conversion_rate,
      avg_deal_value, c6_trial, min_def]
  rw [← calculate_confidence_formula]
  have hconf : calculate_confidence c6_trial = 1/4 := by
    simp only [calculate_confidence, hcf, hef]
    norm_num [c6_trial, min_def]
  rw [hconf]
  norm_num [c6_result]

theorem c6w_eval : (evaluate_trial c6w_state "t6w").1 = some c6w_result := by
  have hget : get_trial c6w_state "t6w" = some c6w_trial := by
    simp [get_trial, c6w_state, c6w_trial, List.find?]
  have hready : is_ready_for_evaluation c6w_trial = true := by decide
  have hcf : fitness_score c6w_trial.classic_branch = 3/10 := by
    norm_num [fitness_score, qualification_rate, conversion_rate,
      avg_deal_value, c6w_trial, min_def]
  have hef : fitness_score c6w_trial.experimental_branch = 3/20 := by
    norm_num [fitness_score, qualification_rate, conversion_rate,
      avg_deal_value, c6w_trial, min_def]
  have hconf : calculate_confidence c6w_trial = 5/8 := by
    simp only [calculate_confidence, hcf, hef]
    rw [show (3:ℚ)/10 - 3/20 = 3/20 by norm_num, abs_of_nonneg (by norm_num : (0:ℚ) ≤ 3/20)]
    norm_num [c6w_trial, min_def]
  simp only [evaluate_trial, hget, hready, hcf, hef, hconf]
  norm_num [c6w_result]

theorem result_confidence_witness :
    c6w_result.confidence =
      (min (((c6w_trial.classic_branch.leads_qualified +
              c6w_trial.experimental_branch.leads_qualified : Nat) : ℚ) /
            ((4 * c6w_trial.min_sample_size : Nat) : ℚ)) 1 +
       min (|fitness_score c6w_trial.classic_branch -
             fitness_score c6w_trial.experimental_branch| / (1/5)) 1) / 2 := by
  have hget : get_trial c6w_state "t6w" = some c6w_trial := by
    simp [get_trial, c6w_state, c6w_trial, List.find?]
  exact (result_confidence c6w_state "t6w" c6w_trial c6w_result hget c6w_eval).2
    (by decide)

end RoseGlass

namespace RoseGlass

/-- C8: the nutrient extracted by bury for each explicit what-went-wrong
item is severity `critical` when the expected deal value exceeds 50000 or
the coherence at failure exceeds 2.5, `moderate` when neither holds and
the coherence exceeds 1.5, and `minor` otherwise. -/
theorem buried_nutrient_severity (st : GraveyardState) (o : OutcomeRecord)
    (issue : String) (h : issue ∈ o.learnings.what_went_wrong) :
    wrongNutrient o issue ∈ (bury_lead st o).1 ∧
    (wrongNutrient o issue).severity =
      (if 50000 < o.expected_value.getD 0 ∨ 5/2 < o.coherence_score.getD 0
       then "critical"
       else if 3/2 < o.coherence_score.getD 0 then "moderate"
       else "minor") := by
  constructor
  · simp only [bury_lead, extract_nutrients]
    exact List.mem_append_left _ (List.mem_append_left _ (List.mem_map_of_mem _ h))
  · by_cases h1 : 50000 < o.expected_value.getD 0 <;>
      by_cases h2 : 5/2 < o.coherence_score.getD 0 <;>
      by_cases h3 : 3/2 < o.coherence_score.getD 0 <;>
      simp [wrongNutrient, assess_severity, h1, h2, h3]

theorem buried_nutrient_severity_witness :
    wrongNutrient c8_outcome "Lost on price" ∈ (bury_lead {} c8_outcome).1 ∧
    (wrongNutrient c8_outcome "Lost on price").severity =
      (if 50000 < c8_outcome.expected_value.getD 0 ∨
          5/2 < c8_outcome.coherence_score.getD 0
       then "critical"
       else if 3/2 < c8_outcome.coherence_score.getD 0 then "moderate"
       else "minor") :=
  buried_nutrient_severity {} c8_outcome "Lost on price"
    (by simp [c8_outcome])

/-- C9: a branch whose per-tier counts sum to its qualified-lead count
and whose revenue and cost are non-negative has total derived metrics
(zero denominators yield 0) and a fitness score in [0, 1]. -/
theorem fitness_score_in_range (b : TrialBranch)
    (hsum : b.leads_hot + b.leads_warm + b.leads_cold + b.leads_disqualified =
      b.leads_qualified)
    (hrev : 0 ≤ b.total_revenue) (hcost : 0 ≤ b.total_cost) :
    (b.leads_qualified = 0 → qualification_rate b = 0) ∧
    (b.outcomes_won + b.outcomes_lost = 0 → conversion_rate b = 0) ∧
    (b.outcomes_won = 0 → avg_deal_value b = 0) ∧
    (b.total_cost = 0 → roi b = 0) ∧
    0 ≤ fitness_score b ∧ fitness_score b ≤ 1 := by
  have hqr : 0 ≤ qualification_rate b ∧ qualification_rate b ≤ 1 := by
    unfold qualification_rate
    split
    · norm_num
    · rename_i hlq
      have hlq' : (0:ℚ) < b.leads_qualified := by
        exact_mod_cast Nat.pos_of_ne_zero hlq
      have hdq : (b.leads_disqualified : ℚ) ≤ (b.leads_qualified : ℚ) := by
        exact_mod_cast le_trans (Nat.le_add_left _ _) (le_of_eq hsum)
      constructor
      · apply div_nonneg _ hlq'.le
        linarith
      · rw [div_le_one hlq']
        have : (0:ℚ) ≤ (b.leads_disqualified : ℚ) := by positivity
        linarith
  have hcr : 0 ≤ conversion_rate b ∧ conversion_rate b ≤ 1 := by
    by_cases hto : b.outcomes_won + b.outcomes_lost = 0
    · simp [conversion_rate, hto]
    · have hto' : (0:ℚ) < ((b.outcomes_won + b.outcomes_lost : Nat) : ℚ) := by
        exact_mod_cast Nat.pos_of_ne_zero hto
      simp only [conversion_rate, if_neg hto]
      constructor
      · positivity
      · rw [div_le_one hto']
        exact_mod_cast Nat.le_add_right _ _
  have hrw : 0 ≤ min (avg_deal_value b / 100000) 1 ∧
      min (avg_deal_value b / 100000) 1 ≤ 1 := by
    constructor
    · apply le_min _ (by norm_num)
      apply div_nonneg _ (by norm_num)
      unfold avg_deal_value
      split
      · norm_num
      · positivity
    · exact min_le_right _ _
  refine ⟨fun h => by simp [qualification_rate, h],
    fun h => by simp [conversion_rate, h],
    fun h => by simp [avg_deal_value, h],
    fun h => by simp [roi, h], ?_, ?_⟩
  · unfold fitness_score
    nlinarith [hqr.1, hcr.1, hrw.1]
  · unfold fitness_score
    nlinarith [hqr.2, hcr.2, hrw.2]

theorem fitness_score_in_range_witness :
    0 ≤ fitness_score c9_branch ∧ fitness_score c9_branch ≤ 1 :=
  (fitness_score_in_range c9_branch (by decide) (by norm_num [c9_branch])
    (by norm_num [c9_branch])).2.2.2.2

end RoseGlass

namespace RoseGlass

theorem perceive_q_urgency (name : String) (lead : LeadData) :
    (perceive name lead).q_urgency = biological_optimization (extract_q_urgency lead) := rfl

theorem perceive_rho (name : String) (lead : LeadData) :
    (perceive name lead).rho_authority = extract_rho_authority lead := rfl

theorem qualify_priority_hot (ln tb : String) (lead : LeadData)
    (h : (qualify ln tb lead).qualification_tier = "hot") :
    (qualify ln tb lead).priority_score = 1 := by
  have hq : 0 ≤ (perceive ln lead).q_urgency := by
    rw [perceive_q_urgency]; exact biological_optimization_nonneg _
  have hrho : 0 ≤ (perceive ln lead).rho_authority := by
    rw [perceive_rho]; exact extract_rho_authority_nonneg lead
  simp only [qualify] at h ⊢
  simp only [calculate_priority, h]
  norm_num
  nlinarith

theorem qualify_priority_le_of_not_hot (ln tb : String) (lead : LeadData)
    (h : (qualify ln tb lead).qualification_tier ≠ "hot") :
    (qualify ln tb lead).priority_score ≤ 19/20 := by
  have hq0 : 0 ≤ (perceive ln lead).q_urgency := by
    rw [perceive_q_urgency]; exact biological_optimization_nonneg _
  have hq1 : (perceive ln lead).q_urgency ≤ 1 := by
    rw [perceive_q_urgency]; exact biological_optimization_le_one _
  have hrho0 : 0 ≤ (perceive ln lead).rho_authority := by
    rw [perceive_rho]; exact extract_rho_authority_nonneg lead
  have hrho1 : (perceive ln lead).rho_authority ≤ 1 := by
    rw [perceive_rho]; exact extract_rho_authority_le_one lead
  simp only [qualify] at h ⊢
  simp only [calculate_priority, h]
  have hbase : (if (perceive ln lead).qualification_tier = "warm" then (3:ℚ)/5
      else if (perceive ln lead).qualification_tier = "cold" then 3/10 else 0) ≤ 3/5 := by
    split_ifs <;> norm_num
  calc min 1 ((if (perceive ln lead).qualification_tier = "warm" then (3:ℚ)/5
        else if (perceive ln lead).qualification_tier = "cold" then 3/10 else 0) +
        (perceive ln lead).q_urgency * (1/5) +
        (perceive ln lead).rho_authority * (3/20)) ≤
      (if (perceive ln lead).qualification_tier = "warm" then (3:ℚ)/5
        else if (perceive ln lead).qualification_tier = "cold" then 3/10 else 0) +
        (perceive ln lead).q_urgency * (1/5) +
        (perceive ln lead).rho_authority * (3/20) := min_le_right _ _
    _ ≤ 19/20 := by nlinarith

theorem qualify_batch_mem (ln tb : String) (leads : List LeadData)
    (r : QualificationResult) (hr : r ∈ qualify_batch ln tb leads) :
    ∃ lead, r = qualify ln tb lead := by
  have hperm := List.perm_insertionSort priorityGE (leads.map (qualify ln tb))
  have : r ∈ leads.map (qualify ln tb) := hperm.mem_iff.mp hr
  rcases List.mem_map.mp this with ⟨lead, _, heq⟩
  exact ⟨lead, heq.symm⟩

/-- C10: a hot qualification has priority exactly 1, a non-hot one at
most 0.95, and batch output (sorted by non-increasing priority) never
places a hot lead after a non-hot one. -/
theorem hot_priority_ordering (ln tb : String) (lead : LeadData)
    (leads : List LeadData) :
    ((qualify ln tb lead).qualification_tier = "hot" →
      (qualify ln tb lead).priority_score = 1) ∧
    ((qualify ln tb lead).qualification_tier ≠ "hot" →
      (qualify ln tb lead).priority_score ≤ 19/20) ∧
    List.Pairwise
      (fun a b => b.qualification_tier = "hot" → a.qualification_tier = "hot")
      (qualify_batch ln tb leads) := by
  refine ⟨qualify_priority_hot ln tb lead, qualify_priority_le_of_not_hot ln tb lead, ?_⟩
  have hsorted : List.Sorted priorityGE (qualify_batch ln tb leads) :=
    List.sorted_insertionSort priorityGE _
  refine hsorted.imp_of_mem ?_
  intro a b ha hb hR hbhot
  rcases qualify_batch_mem ln tb leads a ha with ⟨la, rfl⟩
  rcases qualify_batch_mem ln tb leads b hb with ⟨lb, rfl⟩
  by_contra hna
  have h1 := qualify_priority_hot ln tb lb hbhot
  have h2 := qualify_priority_le_of_not_hot ln tb la hna
  have h3 : (qualify ln tb lb).priority_score ≤ (qualify ln tb la).priority_score := hR
  rw [h1] at h3
  linarith

theorem hot_priority_ordering_witness :
    (qualify "enterprise_saas" "classic" c7_lead).priority_score = 1 :=
  (hot_priority_ordering "enterprise_saas" "classic" c7_lead []).1 c7_lead_eval.1

end RoseGlass
